import Mathlib

/-!
Shallow embedding of the actix-fs crate (src/lib.rs, src/dir.rs, src/file.rs).

The crate is an asynchronous facade over synchronous filesystem calls: each
public operation builds a closure around the corresponding std::fs call and
hands it to a blocking-call offload bridge built on actix_threadpool::run.
The OS itself is modelled as an oracle (`OsEnv`) supplying the outcome of each
synchronous call, and the ambient worker pool as a `PoolBehavior` describing
whether the submitted unit of work is executed, canceled, or unreachable.
-/

namespace ActixFs

/-- Paths are opaque to this crate: it performs no normalization, so a path is
modelled as its raw string. -/
abbrev Path : Type := String

/-- Classification carried by std::io::Error (the subset of ErrorKind variants
relevant here; `other` is ErrorKind::Other). -/
inductive ErrorKind where
  | notFound
  | permissionDenied
  | alreadyExists
  | invalidInput
  | timedOut
  | interrupted
  | other
  deriving DecidableEq

/-- std::io::Error as observed by callers: a kind plus a message. -/
structure IoError where
  kind : ErrorKind
  msg : String
  deriving DecidableEq

/-- src/lib.rs `blocking_err`: the fixed error built by the bridge, of kind
Other with a fixed message about the Actix runtime context. -/
def blocking_err : IoError :=
  { kind := ErrorKind.other
    msg := "`blocking` annotated I/O must be called from the context of the Actix runtime." }

/-- The error type of actix_threadpool::run (external dependency): either the
error produced by the unit of work itself, or cancellation by the pool. -/
inductive BlockingError (E : Type) where
  | error (e : E)
  | canceled

/-- Display text of a BlockingError per the actix_threadpool dependency: the
error variant shows the wrapped error, cancellation a fixed pool-gone text. -/
def BlockingError.description {E : Type} (dbg : E → String) : BlockingError E → String
  | BlockingError.error e => dbg e
  | BlockingError.canceled => "Thread pool is gone"

/-- Behavior of the ambient runtime and its worker pool toward one submission:
no offload facility is reachable, the pool fails to execute the work
(shutdown, fault, cancellation), or the work runs to completion. -/
inductive PoolBehavior where
  | unreachable
  | canceled
  | completes
  deriving DecidableEq

/-- The future-like handle returned by the bridge: it owns the single-use unit
of work that was submitted. -/
structure Fut (E α : Type) where
  work : Unit → Except E α

/-- Outcome of actix_threadpool::run for a submitted unit of work, given the
ambient pool behavior: on completion the closure result is delivered, with its
error wrapped as BlockingError.error; otherwise the handle resolves with
BlockingError.canceled. -/
def actixThreadpoolRun {E α : Type} (f : Unit → Except E α) :
    PoolBehavior → Except (BlockingError E) α
  | PoolBehavior.completes =>
      match f () with
      | Except.ok a => Except.ok a
      | Except.error e => Except.error (BlockingError.error e)
  | PoolBehavior.unreachable => Except.error BlockingError.canceled
  | PoolBehavior.canceled => Except.error BlockingError.canceled

/-- src/lib.rs `blocking`: submits the unit of work to the offload bridge and
returns the future-like handle. -/
def blocking {E α : Type} (f : Unit → Except E α) : Fut E α := Fut.mk f

/-- Resolution of the handle returned by `blocking`: the outcome of
actix_threadpool::run with every BlockingError mapped, as in
src/lib.rs line 14, by map_err dropping its argument, to `blocking_err`. -/
def Fut.resolve {E α : Type} (fut : Fut E α) (pb : PoolBehavior) : Except IoError α :=
  (actixThreadpoolRun fut.work pb).mapError (fun _ => blocking_err)

/-- The OS filesystem as an oracle: the outcome each synchronous std::fs call
would produce. Filesystem calls are delegated to it unchanged. -/
structure StdFile where
  fd : Nat
  deriving DecidableEq

/-- std::fs::OpenOptions: the accumulating open flags. -/
structure StdOpenOptions where
  read : Bool
  write : Bool
  append : Bool
  truncate : Bool
  create : Bool
  createNew : Bool
  deriving DecidableEq

def StdOpenOptions.new : StdOpenOptions :=
  StdOpenOptions.mk false false false false false false

def StdOpenOptions.setRead (o : StdOpenOptions) (b : Bool) : StdOpenOptions :=
  { o with read := b }

def StdOpenOptions.setWrite (o : StdOpenOptions) (b : Bool) : StdOpenOptions :=
  { o with write := b }

def StdOpenOptions.setAppend (o : StdOpenOptions) (b : Bool) : StdOpenOptions :=
  { o with append := b }

def StdOpenOptions.setTruncate (o : StdOpenOptions) (b : Bool) : StdOpenOptions :=
  { o with truncate := b }

def StdOpenOptions.setCreate (o : StdOpenOptions) (b : Bool) : StdOpenOptions :=
  { o with create := b }

def StdOpenOptions.setCreateNew (o : StdOpenOptions) (b : Bool) : StdOpenOptions :=
  { o with createNew := b }

/-- The OS oracle: outcomes of the synchronous std::fs calls the crate issues. -/
structure OsEnv where
  createDir : Path → Except IoError Unit
  createDirAll : Path → Except IoError Unit
  removeDir : Path → Except IoError Unit
  removeFile : Path → Except IoError Unit
  renamePath : Path → Path → Except IoError Unit
  openWith : StdOpenOptions → Path → Except IoError StdFile

/-! ## src/dir.rs -/

/-- src/dir.rs `create_dir`: submits fs::create_dir on the captured path. -/
def create_dir (path : Path) (env : OsEnv) : Fut IoError Unit :=
  blocking (fun _ => env.createDir path)

/-- src/dir.rs `create_dir_all`: submits fs::create_dir_all on the captured path. -/
def create_dir_all (path : Path) (env : OsEnv) : Fut IoError Unit :=
  blocking (fun _ => env.createDirAll path)

/-- src/dir.rs `remove_dir`: submits fs::remove_dir on the captured path. -/
def remove_dir (path : Path) (env : OsEnv) : Fut IoError Unit :=
  blocking (fun _ => env.removeDir path)

/-! ## src/file.rs -/

/-- src/file.rs `File`: a handle holding its underlying descriptor in an
ownership slot (`Option<StdFile>`) that can be emptied. -/
structure File where
  std : Option StdFile
  deriving DecidableEq

/-- src/file.rs `File::from_std`: wraps a std file, slot occupied. -/
def File.from_std (std : StdFile) : File := File.mk (some std)

/-- src/file.rs `Drop for File`: `self.std.take()` empties the slot, returning
the taken descriptor; the drop body issues no OS call of its own. The pair is
the handle after the drop together with what was taken from the slot. -/
def File.dropTake (f : File) : File × Option StdFile :=
  (File.mk none, f.std)

/-- Number of live descriptors held by a handle (the slot holds at most one). -/
def File.liveDescriptors (f : File) : Nat :=
  match f.std with
  | none => 0
  | some _ => 1

/-- std::fs::File::create (external std contract): documented as equivalent to
OpenOptions::new().write(true).create(true).truncate(true).open(path). -/
def StdFile.create (path : Path) (env : OsEnv) : Except IoError StdFile :=
  env.openWith (((StdOpenOptions.new.setWrite true).setCreate true).setTruncate true) path

/-- src/file.rs `OpenOptions`: a newtype over std::fs::OpenOptions. -/
structure OpenOptions where
  std : StdOpenOptions
  deriving DecidableEq

/-- src/file.rs `OpenOptions::new`: all flags initially false. -/
def OpenOptions.new : OpenOptions := OpenOptions.mk StdOpenOptions.new

/-- src/file.rs `OpenOptions::read`: delegates to the std setter. The Rust
method mutates through &mut self and returns the same builder; in the
state-passing embedding it returns the updated builder. -/
def OpenOptions.read (o : OpenOptions) (b : Bool) : OpenOptions :=
  OpenOptions.mk (o.std.setRead b)

/-- src/file.rs `OpenOptions::write`. -/
def OpenOptions.write (o : OpenOptions) (b : Bool) : OpenOptions :=
  OpenOptions.mk (o.std.setWrite b)

/-- src/file.rs `OpenOptions::append`. -/
def OpenOptions.append (o : OpenOptions) (b : Bool) : OpenOptions :=
  OpenOptions.mk (o.std.setAppend b)

/-- src/file.rs `OpenOptions::truncate`. -/
def OpenOptions.truncate (o : OpenOptions) (b : Bool) : OpenOptions :=
  OpenOptions.mk (o.std.setTruncate b)

/-- src/file.rs `OpenOptions::create`. -/
def OpenOptions.create (o : OpenOptions) (b : Bool) : OpenOptions :=
  OpenOptions.mk (o.std.setCreate b)

/-- src/file.rs `OpenOptions::create_new`. -/
def OpenOptions.create_new (o : OpenOptions) (b : Bool) : OpenOptions :=
  OpenOptions.mk (o.std.setCreateNew b)

/-- src/file.rs `OpenOptions::open`: clones the flags (`let opt = self.0.clone()`)
and submits a unit of work that opens the path with that snapshot and wraps the
descriptor via File::from_std; the builder itself is taken by shared reference. -/
def OpenOptions.open (o : OpenOptions) (path : Path) (env : OsEnv) : Fut IoError File :=
  let opt := o.std
  blocking (fun _ =>
    match env.openWith opt path with
    | Except.ok std => Except.ok (File.from_std std)
    | Except.error e => Except.error e)

/-- src/file.rs `From<StdOpenOptions> for OpenOptions`. -/
def OpenOptions.from (options : StdOpenOptions) : OpenOptions :=
  OpenOptions.mk options

/-- src/file.rs `File::open`: OpenOptions::new().read(true).open(path). -/
def File.open (path : Path) (env : OsEnv) : Fut IoError File :=
  (OpenOptions.new.read true).open path env

/-- src/file.rs `File::create`: submits a unit of work that calls
std::fs::File::create on the path and wraps the descriptor via File::from_std. -/
def File.create (path : Path) (env : OsEnv) : Fut IoError File :=
  blocking (fun _ =>
    match StdFile.create path env with
    | Except.ok std => Except.ok (File.from_std std)
    | Except.error e => Except.error e)

/-- src/file.rs `remove_file`: submits fs::remove_file on the captured path. -/
def remove_file (path : Path) (env : OsEnv) : Fut IoError Unit :=
  blocking (fun _ => env.removeFile path)

/-- src/file.rs `rename`: submits fs::rename on the two captured paths. -/
def rename (fromPath toPath : Path) (env : OsEnv) : Fut IoError Unit :=
  blocking (fun _ => env.renamePath fromPath toPath)

/-! ## src/lib.rs module structure -/

/-- The module declarations of src/lib.rs: only `mod dir;` appears. -/
def libModules : List String := ["dir"]

/-- The names re-exported at the crate root by src/lib.rs
(`pub use dir::{create_dir, create_dir_all, remove_dir};`); `blocking` and
`blocking_err` are private, and no other item is declared at the root. -/
def libExports : List String := ["create_dir", "create_dir_all", "remove_dir"]

/-! ## Auxiliary definitions used by the verification -/

/-- Spec-side definition: a pure facade over the offload bridge that submits
exactly the given synchronous operation as its unit of work, with no added
logic. -/
def pureFacade {α : Type} (op : Except IoError α) : Fut IoError α :=
  blocking (fun _ => op)

/-- One setter call on the open-options builder. -/
inductive Setter where
  | read (b : Bool)
  | write (b : Bool)
  | append (b : Bool)
  | truncate (b : Bool)
  | create (b : Bool)
  | create_new (b : Bool)
  deriving DecidableEq

/-- Apply one setter call to the builder. -/
def applySetter (o : OpenOptions) : Setter → OpenOptions
  | Setter.read b => o.read b
  | Setter.write b => o.write b
  | Setter.append b => o.append b
  | Setter.truncate b => o.truncate b
  | Setter.create b => o.create b
  | Setter.create_new b => o.create_new b

/-- Apply a sequence of setter calls to the builder. -/
def applySetters (o : OpenOptions) (muts : List Setter) : OpenOptions :=
  muts.foldl applySetter o

/-- A two-phase caller program: issue the open call from builder `o`, then keep
mutating the builder; the result pairs the in-flight future (created before the
mutations) with the builder as it stands after them. -/
def openThenMutate (o : OpenOptions) (path : Path) (env : OsEnv) (muts : List Setter) :
    Fut IoError File × OpenOptions :=
  let fut := o.open path env
  let o2 := applySetters o muts
  (fut, o2)

/-- Does `needle` occur at the start of `hay`? -/
def startsWithSeq : List Char → List Char → Bool
  | [], _ => true
  | _ :: _, [] => false
  | a :: as, b :: bs => a == b && startsWithSeq as bs

/-- Does `needle` occur contiguously anywhere inside `hay`? -/
def containsSeq (needle : List Char) : List Char → Bool
  | [] => startsWithSeq needle []
  | c :: rest => startsWithSeq needle (c :: rest) || containsSeq needle rest

/-- An OS oracle on which every filesystem call succeeds, opens yielding
descriptor 3. -/
def envOk : OsEnv :=
  OsEnv.mk (fun _ => Except.ok ()) (fun _ => Except.ok ()) (fun _ => Except.ok ())
    (fun _ => Except.ok ()) (fun _ _ => Except.ok ()) (fun _ _ => Except.ok (StdFile.mk 3))

/-- The operation error returned by the OS for a create_dir on an existing
path. -/
def eexist : IoError := IoError.mk ErrorKind.alreadyExists "File exists (os error 17)"

/-- An OS oracle on which create_dir fails with `eexist` and everything else
succeeds. -/
def envEEXIST : OsEnv := { envOk with createDir := fun _ => Except.error eexist }

/-- Resolution of a bridged unit of work, case by case on the pool behavior:
on completion the closure result with its error replaced by `blocking_err`,
otherwise `blocking_err` directly. -/
theorem resolve_blocking_eq {E α : Type} (f : Unit → Except E α) (pb : PoolBehavior) :
    (blocking f).resolve pb =
      match pb with
      | PoolBehavior.completes => (f ()).mapError (fun _ => blocking_err)
      | PoolBehavior.unreachable => Except.error blocking_err
      | PoolBehavior.canceled => Except.error blocking_err := by
  cases pb <;> cases h : f () <;>
    simp [blocking, Fut.resolve, actixThreadpoolRun, h, Except.mapError]

/-! ## Claim theorems -/

/-- Claim C9: for every submitted unit of work and every pool behavior, any
error observed from the resolved handle is the single fixed value
`blocking_err`, of kind Other with the fixed Actix-runtime message; the bridge
maps every failure source (operation error, pool cancellation, runtime
absence) to this same error. -/
theorem c9_single_fixed_error {E α : Type} (f : Unit → Except E α)
    (pb : PoolBehavior) (e : IoError)
    (h : (blocking f).resolve pb = Except.error e) :
    e = blocking_err ∧ e.kind = ErrorKind.other ∧
      e.msg = "`blocking` annotated I/O must be called from the context of the Actix runtime." := by
  rw [resolve_blocking_eq] at h
  have he : e = blocking_err := by
    cases pb with
    | completes =>
        cases hf : f () with
        | ok a => rw [hf] at h; simp [Except.mapError] at h
        | error e0 => rw [hf] at h; simp [Except.mapError] at h; exact h.symm
    | unreachable => simp at h; exact h.symm
    | canceled => simp at h; exact h.symm
  subst he
  exact ⟨rfl, rfl, rfl⟩

/-- Witness for C9 at a concrete input: a unit of work that fails with a
not-found operation error, executed to completion by the pool, resolves with
exactly `blocking_err`. -/
theorem c9_single_fixed_error_witness :
    blocking_err = blocking_err ∧ blocking_err.kind = ErrorKind.other ∧
      blocking_err.msg = "`blocking` annotated I/O must be called from the context of the Actix runtime." :=
  c9_single_fixed_error
    (fun _ => (Except.error (IoError.mk ErrorKind.notFound "not found") : Except IoError Unit))
    PoolBehavior.completes blocking_err rfl

/-- Claim C1 (code bug): the operation error is NOT passed through unchanged.
When the unit of work completes and its filesystem call fails with the
already-exists error `eexist`, the resolved error delivered to the caller is
`blocking_err`, which differs from `eexist` both as a value and in its kind:
the OS-provided classification and message are lost. -/
theorem c1_operation_error_replaced :
    envEEXIST.createDir "/d" = Except.error eexist ∧
    (create_dir "/d" envEEXIST).resolve PoolBehavior.completes = Except.error blocking_err ∧
    blocking_err ≠ eexist ∧
    blocking_err.kind ≠ eexist.kind := by
  refine ⟨rfl, rfl, ?_, ?_⟩ <;> decide

/-- Counterexample to C2 as stated: when the pool cancels the unit of work,
the resolved error is the fixed `blocking_err`, and its description does not
embed the underlying failure description ("Thread pool is gone" per the
threadpool dependency) anywhere as a substring. -/
theorem c2_description_not_embedded :
    (create_dir "/d" envOk).resolve PoolBehavior.canceled = Except.error blocking_err ∧
    containsSeq
        ((BlockingError.description (fun (e : IoError) => e.msg)
          (BlockingError.canceled : BlockingError IoError)).data)
        blocking_err.msg.data = false := by
  exact ⟨rfl, by decide⟩

/-- Claim C2 (amended): when the worker pool fails to execute the unit of work,
the handle resolves with an error coerced into the same error type as
filesystem errors (kind Other), but it is the fixed `blocking_err`; the
underlying failure description is discarded, not embedded. -/
theorem c2_pool_failure_fixed_error {E α : Type} (f : Unit → Except E α) :
    (blocking f).resolve PoolBehavior.canceled = Except.error blocking_err ∧
    blocking_err.kind = ErrorKind.other :=
  ⟨rfl, rfl⟩

/-- Counterexample to C3 as stated: the offload-unavailable error is NOT
distinguishable from operation errors by inspecting the error value. An
operation failure (create_dir on an existing path, work executed) resolves
with the very same error value as a call with no reachable runtime. -/
theorem c3_not_distinguishable :
    (create_dir "/d" envEEXIST).resolve PoolBehavior.completes
      = (create_dir "/d" envOk).resolve PoolBehavior.unreachable ∧
    (create_dir "/d" envOk).resolve PoolBehavior.unreachable = Except.error blocking_err :=
  ⟨rfl, rfl⟩

/-- Claim C3 (amended): calling any facade function from a context with no
reachable runtime offload facility resolves with the fixed offload-unavailable
error `blocking_err`; however, that error is not distinguishable from
operation errors by inspection, since operation failures are delivered as the
same value. -/
theorem c3_unreachable_fixed_error (p q : Path) (env : OsEnv) :
    (create_dir p env).resolve PoolBehavior.unreachable = Except.error blocking_err ∧
    (create_dir_all p env).resolve PoolBehavior.unreachable = Except.error blocking_err ∧
    (remove_dir p env).resolve PoolBehavior.unreachable = Except.error blocking_err ∧
    (remove_file p env).resolve PoolBehavior.unreachable = Except.error blocking_err ∧
    (rename p q env).resolve PoolBehavior.unreachable = Except.error blocking_err ∧
    (File.open p env).resolve PoolBehavior.unreachable = Except.error blocking_err ∧
    (File.create p env).resolve PoolBehavior.unreachable = Except.error blocking_err ∧
    ∀ o : OpenOptions, (o.open p env).resolve PoolBehavior.unreachable = Except.error blocking_err :=
  ⟨rfl, rfl, rfl, rfl, rfl, rfl, rfl, fun _ => rfl⟩

/-- Claim C4 (code bug): src/lib.rs declares only the `dir` module and
re-exports only the three directory operations; the `file` module is never
declared, so remove_file, rename, File (hence File::open and File::create) and
OpenOptions are not reachable by a user of the library. -/
theorem c4_file_module_unreachable :
    ("create_dir" ∈ libExports ∧ "create_dir_all" ∈ libExports ∧ "remove_dir" ∈ libExports) ∧
    "remove_file" ∉ libExports ∧
    "rename" ∉ libExports ∧
    "File" ∉ libExports ∧
    "OpenOptions" ∉ libExports ∧
    "dir" ∈ libModules ∧
    "file" ∉ libModules := by
  decide

/-- Resolution of a bridged unit of work producing Unit: either success with
no value, or the fixed error. -/
theorem resolve_unit_cases (op : Except IoError Unit) (pb : PoolBehavior) :
    (pureFacade op).resolve pb = Except.ok ()
      ∨ (pureFacade op).resolve pb = Except.error blocking_err := by
  rw [pureFacade, resolve_blocking_eq]
  cases pb with
  | completes => cases op with
    | ok u => cases u; exact Or.inl rfl
    | error e => exact Or.inr rfl
  | unreachable => exact Or.inr rfl
  | canceled => exact Or.inr rfl

/-- Characterization of resolving an open-options open call, case by case on
the pool behavior and the outcome of the OS open with the snapshot flags. -/
theorem open_resolve_eq (o : OpenOptions) (p : Path) (env : OsEnv) (pb : PoolBehavior) :
    (o.open p env).resolve pb =
      match pb, env.openWith o.std p with
      | PoolBehavior.completes, Except.ok sd => Except.ok (File.from_std sd)
      | PoolBehavior.completes, Except.error _ => Except.error blocking_err
      | PoolBehavior.unreachable, _ => Except.error blocking_err
      | PoolBehavior.canceled, _ => Except.error blocking_err := by
  cases pb <;> cases he : env.openWith o.std p <;>
    simp [OpenOptions.open, blocking, Fut.resolve, actixThreadpoolRun, he, Except.mapError]

/-- Characterization of resolving File::create, case by case on the pool
behavior and the outcome of the std create call. -/
theorem create_resolve_eq (p : Path) (env : OsEnv) (pb : PoolBehavior) :
    (File.create p env).resolve pb =
      match pb, StdFile.create p env with
      | PoolBehavior.completes, Except.ok sd => Except.ok (File.from_std sd)
      | PoolBehavior.completes, Except.error _ => Except.error blocking_err
      | PoolBehavior.unreachable, _ => Except.error blocking_err
      | PoolBehavior.canceled, _ => Except.error blocking_err := by
  cases pb <;> cases he : StdFile.create p env <;>
    simp [File.create, blocking, Fut.resolve, actixThreadpoolRun, he, Except.mapError]

/-- Claim C5: create_dir, create_dir_all and remove_dir are pure facades over
the offload bridge with no added logic: each submits exactly the corresponding
synchronous filesystem call on the captured path as its unit of work, and each
produces no value on success (the resolved handle yields either the unit value
or an error). -/
theorem c5_dir_pure_facades (p : Path) (env : OsEnv) :
    create_dir p env = pureFacade (env.createDir p) ∧
    create_dir_all p env = pureFacade (env.createDirAll p) ∧
    remove_dir p env = pureFacade (env.removeDir p) ∧
    (∀ pb : PoolBehavior, (create_dir p env).resolve pb = Except.ok ()
        ∨ (create_dir p env).resolve pb = Except.error blocking_err) ∧
    (∀ pb : PoolBehavior, (create_dir_all p env).resolve pb = Except.ok ()
        ∨ (create_dir_all p env).resolve pb = Except.error blocking_err) ∧
    (∀ pb : PoolBehavior, (remove_dir p env).resolve pb = Except.ok ()
        ∨ (remove_dir p env).resolve pb = Except.error blocking_err) :=
  ⟨rfl, rfl, rfl,
    fun pb => resolve_unit_cases (env.createDir p) pb,
    fun pb => resolve_unit_cases (env.createDirAll p) pb,
    fun pb => resolve_unit_cases (env.removeDir p) pb⟩

/-- Claim C6: File::open and File::create are convenience facades expressed in
terms of the open-options builder: File::open(path) is the builder with only
the read flag set, and File::create(path) behaves as the builder with the
write, truncate and create flags set (per the documented std contract of
std::fs::File::create). -/
theorem c6_open_create_shorthands (p : Path) (env : OsEnv) :
    OpenOptions.new.read true
      = OpenOptions.mk (StdOpenOptions.mk true false false false false false) ∧
    File.open p env
      = (OpenOptions.mk (StdOpenOptions.mk true false false false false false)).open p env ∧
    ((OpenOptions.new.write true).truncate true).create true
      = OpenOptions.mk (StdOpenOptions.mk false true false true true false) ∧
    File.create p env
      = (OpenOptions.mk (StdOpenOptions.mk false true false true true false)).open p env :=
  ⟨rfl, rfl, rfl, rfl⟩

/-- Claim C7: an open call captures a snapshot of the flags at the moment of
the call. Resolving the future issues the OS open with exactly the flags
accumulated so far; in the two-phase program that opens and then keeps
mutating the builder, the in-flight future is the one built from the original
flags, unaffected by the later mutations, while the builder itself carries
exactly the mutations applied from its unchanged flags. -/
theorem c7_open_snapshots_flags (o : OpenOptions) (p : Path) (env : OsEnv)
    (muts : List Setter) :
    (o.open p env).resolve PoolBehavior.completes
      = ((env.openWith o.std p).map File.from_std).mapError (fun _ => blocking_err) ∧
    (openThenMutate o p env muts).1 = o.open p env ∧
    (openThenMutate o p env muts).2 = applySetters o muts ∧
    applySetters o [] = o := by
  refine ⟨?_, rfl, rfl, rfl⟩
  cases he : env.openWith o.std p <;>
    simp [OpenOptions.open, blocking, Fut.resolve, actixThreadpoolRun, he,
      Except.map, Except.mapError]

/-- Claim C8: a file handle holds its descriptor in a slot with at most one
live descriptor; the teardown empties the slot, yielding the held descriptor
exactly once, and a handle whose slot has been emptied holds nothing a further
operation could reach (a second take yields nothing). -/
theorem c8_descriptor_slot (f : File) (s : StdFile) :
    f.liveDescriptors ≤ 1 ∧
    (File.from_std s).liveDescriptors = 1 ∧
    (f.dropTake).1.std = none ∧
    (f.dropTake).2 = f.std ∧
    ((f.dropTake).1.dropTake).2 = none ∧
    (f.dropTake).1.liveDescriptors = 0 := by
  obtain ⟨std⟩ := f
  cases std <;> simp [File.liveDescriptors, File.dropTake, File.from_std]

/-- Claim C10: File::from_std always yields a handle whose slot holds the
given descriptor, and the open and create paths construct their successful
handles only through File::from_std, hence with an occupied slot. -/
theorem c10_from_std_occupied (s : StdFile) (o : OpenOptions) (p : Path) (env : OsEnv)
    (pb : PoolBehavior) (f g : File) :
    (File.from_std s).std = some s ∧
    ((o.open p env).resolve pb = Except.ok f
      → ∃ sd, f = File.from_std sd ∧ f.std = some sd) ∧
    ((File.create p env).resolve pb = Except.ok g
      → ∃ sd, g = File.from_std sd ∧ g.std = some sd) := by
  refine ⟨rfl, ?_, ?_⟩
  · intro h
    rw [open_resolve_eq] at h
    cases pb with
    | completes =>
        cases he : env.openWith o.std p with
        | ok sd =>
            rw [he] at h
            injection h with h2
            exact ⟨sd, h2.symm, by rw [← h2]; rfl⟩
        | error e => rw [he] at h; cases h
    | unreachable => cases h
    | canceled => cases h
  · intro h
    rw [create_resolve_eq] at h
    cases pb with
    | completes =>
        cases he : StdFile.create p env with
        | ok sd =>
            rw [he] at h
            injection h with h2
            exact ⟨sd, h2.symm, by rw [← h2]; rfl⟩
        | error e => rw [he] at h; cases h
    | unreachable => cases h
    | canceled => cases h

/-- Witness for C10 at a concrete input: on the all-success OS oracle, opening
with the fresh builder and creating both resolve to the handle wrapping
descriptor 3, whose slot is occupied. -/
theorem c10_from_std_occupied_witness :
    (File.from_std (StdFile.mk 3)).std = some (StdFile.mk 3) ∧
    (∃ sd, File.from_std (StdFile.mk 3) = File.from_std sd
      ∧ (File.from_std (StdFile.mk 3)).std = some sd) ∧
    (∃ sd, File.from_std (StdFile.mk 3) = File.from_std sd
      ∧ (File.from_std (StdFile.mk 3)).std = some sd) := by
  have h := c10_from_std_occupied (StdFile.mk 3) OpenOptions.new "/f" envOk
    PoolBehavior.completes (File.from_std (StdFile.mk 3)) (File.from_std (StdFile.mk 3))
  exact ⟨h.1, h.2.1 rfl, h.2.2 rfl⟩

end ActixFs
